import Mathlib

/-!
# Verification of the etcd-rs client core (`src/client.rs`, `src/error.rs`)

A shallow embedding of the resilient RPC execution layer of the etcd-rs
client library: the retry executor (`Client::execute_with_retries`), the
session-token refresh protocol (`Client::refresh_token`), client
construction (`Client::new`), the watch create handshake (`Client::watch`)
and the lease keep-alive handshake (`Client::keep_alive_for`), together
with the routing of every unary operation facade.

Network effects are embedded as explicit environments: an environment
records, for each RPC the code may issue, the outcome the transport would
deliver.  The Lean functions then mirror the Rust control flow over those
outcomes, instrumented with the observable counts the specification talks
about (number of attempts made, number of authenticate RPCs issued,
whether a stream RPC was opened).
-/

namespace EtcdRs

/-- gRPC status codes (`tonic::Code`).  Only `unauthenticated` and
`unavailable` are inspected by the client; the rest are listed for
completeness of the embedding of `tonic::Status`. -/
inductive Code
  | ok
  | cancelled
  | unknown
  | invalidArgument
  | deadlineExceeded
  | notFound
  | alreadyExists
  | permissionDenied
  | resourceExhausted
  | failedPrecondition
  | aborted
  | outOfRange
  | unimplemented
  | internal
  | unavailable
  | dataLoss
  | unauthenticated
  deriving DecidableEq, Repr

/-- A protocol-level failure (`tonic::Status`): a code plus a message. -/
structure Status where
  code : Code
  message : String
  deriving DecidableEq, Repr

/-- The library's error enum (`src/error.rs`, `enum Error`).  Variants
whose Rust payload is an opaque foreign error are embedded with the
error's display string. -/
inductive Error
  | IOError (msg : String)
  | InvalidURI (msg : String)
  | Transport (msg : String)
  | Response (status : Status)
  | ChannelClosed
  | CreateWatch
  | WatchEvent (msg : String)
  | KeepAliveLease
  | WatchChannelSend (msg : String)
  | WatchEventExhausted
  | InvalidMetadataToken (msg : String)
  | ParseMetadataToken (msg : String)
  | PoisonError (msg : String)
  | ExecuteFailed
  deriving DecidableEq, Repr

/-- A character acceptable in an ASCII `tonic::metadata::MetadataValue`
(`http::HeaderValue::from_str`): horizontal tab or a visible ASCII
character in the byte range 32..=126. -/
def isVisibleAscii (c : Char) : Bool :=
  c.toNat == 9 || (32 ≤ c.toNat && c.toNat ≤ 126)

/-- Whether `MetadataValue::<Ascii>::try_from(&token)` succeeds on the
token string: every character must be tab or visible ASCII (any other
character, including non-ASCII ones whose UTF-8 bytes fall outside the
range, is rejected by the header-value parser). -/
def metadataParsable (s : String) : Bool :=
  s.data.all isVisibleAscii

/-- Display string of `tonic::metadata::errors::InvalidMetadataValue`,
the argument `err.to_string()` gives to `Error::ParseMetadataToken`. -/
def invalidMetadataValueMsg : String := "failed to parse metadata value"

/-- The session-relevant fields of `Client`: the optional
`(username, password)` credential pair (`auth_user`) and the shared
token cell (`token: Arc<RwLock<Option<MetadataValue<Ascii>>>>`),
embedded as the parsed token string. -/
structure Session where
  authUser : Option (String × String)
  token : Option String
  deriving DecidableEq, Repr

/-- Environment for the authenticate RPC: `authenticate n` is the
outcome the transport delivers for the n-th (0-based) authenticate call
issued by the client — either a protocol status or the token string of
a successful `AuthenticateResponse`. -/
structure AuthEnv where
  authenticate : Nat → Except Status String

/-- `Client::refresh_token` (src/client.rs:325-337), instrumented with a
counter of authenticate RPCs issued so far.  With no credentials it
succeeds without any RPC and without touching the token cell.  With
credentials it issues one authenticate RPC; a status failure surfaces as
`Error::Response` (via the `?` conversion), an unparsable token as
`Error::ParseMetadataToken`, and only on success is the token cell
replaced. -/
def refreshToken (aenv : AuthEnv) (s : Session) (calls : Nat) :
    Except Error Session × Nat :=
  match s.authUser with
  | none => (Except.ok s, calls)
  | some _ =>
    match aenv.authenticate calls with
    | Except.error st => (Except.error (Error.Response st), calls + 1)
    | Except.ok token =>
      if metadataParsable token then
        (Except.ok { s with token := some token }, calls + 1)
      else
        (Except.error (Error.ParseMetadataToken invalidMetadataValueMsg), calls + 1)

/-- Outcome of one RPC attempt as delivered by the transport
(`Result<R, tonic::Status>`). -/
inductive AttemptResult (R : Type)
  | ok (response : R)
  | err (status : Status)

/-- Environment for a unary call: `call i req tok` is the outcome the
transport delivers for the i-th attempt (1-based) of this logical call,
issued with message `req` and with `tok` attached under the
`authorization` metadata key (`none` = no token attached). -/
structure CallEnv (T R : Type) where
  call : Nat → T → Option String → AttemptResult R

/-- Result of running a unary call to completion: the value or error
returned to the caller, plus the number of RPC attempts that were
issued. -/
structure RetryOutcome (R : Type) where
  result : Except Error R
  attempts : Nat

/-- The body of the `for _i in 1..=MAX_RETRY` loop of
`Client::execute_with_retries` (src/client.rs:347-373).  `fuel` is the
number of loop iterations left, `made` the attempts already made,
`calls` the authenticate RPCs already issued, `s` the current session
state.  Each iteration clones the request, attaches the current token,
and invokes the call; `Ok` returns immediately; `Unauthenticated` runs
`refresh_token` (propagating its error via `?`); `Unavailable`
continues the loop; any other status returns `Error::Response`;
exhaustion of the loop returns `Error::ExecuteFailed`. -/
def retryLoop (env : CallEnv T R) (aenv : AuthEnv) (req : T) :
    Nat → Nat → Nat → Session → RetryOutcome R
  | 0, made, _, _ => ⟨Except.error Error.ExecuteFailed, made⟩
  | fuel+1, made, calls, s =>
    match env.call (made + 1) req s.token with
    | AttemptResult.ok r => ⟨Except.ok r, made + 1⟩
    | AttemptResult.err st =>
      if st.code = Code.unauthenticated then
        match refreshToken aenv s calls with
        | (Except.error e, _) => ⟨Except.error e, made + 1⟩
        | (Except.ok s', calls') => retryLoop env aenv req fuel (made + 1) calls' s'
      else if st.code = Code.unavailable then
        retryLoop env aenv req fuel (made + 1) calls s
      else
        ⟨Except.error (Error.Response st), made + 1⟩

/-- `static MAX_RETRY: i32 = 3` (src/client.rs:41). -/
def MAX_RETRY : Nat := 3

/-- `Client::execute_with_retries` (src/client.rs:347-373): run the
bounded retry loop starting from the caller's session state. -/
def executeWithRetries (env : CallEnv T R) (aenv : AuthEnv) (s : Session)
    (req : T) : RetryOutcome R :=
  retryLoop env aenv req MAX_RETRY 0 0 s

/-! ## Client construction (`Client::new`) -/

/-- Outcome of `Client::new` (src/client.rs:298-323).  A `panicked`
outcome embeds a Rust panic: the function aborts instead of returning
either a success or a typed `Err`. -/
inductive NewOutcome
  | ok (s : Session)
  | err (e : Error)
  | panicked
  deriving DecidableEq, Repr

/-- `Client::new` restricted to its session/authentication behaviour
(channel construction over the endpoint list is orthogonal to the
claims and not embedded; its failures would yield `NewOutcome.err`
before this point).  With credentials configured the constructor sets
`auth_user` and runs `refresh_token().await.unwrap()`: a refresh
failure hits the `.unwrap()` and panics. -/
def clientNew (aenv : AuthEnv) (auth : Option (String × String)) : NewOutcome :=
  match auth with
  | none => NewOutcome.ok ⟨none, none⟩
  | some cred =>
    match refreshToken aenv ⟨some cred, none⟩ 0 with
    | (Except.ok s', _) => NewOutcome.ok s'
    | (Except.error _, _) => NewOutcome.panicked

/-! ## Watch create handshake (`Client::watch`) -/

/-- One message of the inbound watch stream
(`etcdserverpb::WatchResponse`), restricted to the fields the handshake
inspects; the change events are embedded opaquely. -/
structure WatchResponse where
  watchId : Int
  created : Bool
  canceled : Bool
  cancelReason : String
  events : List Nat
  deriving DecidableEq, Repr

/-- Environment for one `watch()` call: the outcome of pushing the
create request into the outbound channel, of issuing the watch stream
RPC, and of reading the first inbound message (`inbound.message()`,
where `Except.ok none` is a stream that closed before any message). -/
structure WatchEnv where
  channelSend : Except Error Unit
  openStream : Except Status Unit
  firstMessage : Except Status (Option WatchResponse)

/-- Result of `watch()`: a session (the `WatchStream` plus a
`WatchCanceler` carrying the server-assigned watch id), a typed error,
or a panic of the `assert!(resp.events.is_empty(), ..)` check. -/
inductive WatchResult
  | ok (watchId : Int)
  | err (e : Error)
  | panicked
  deriving DecidableEq, Repr

/-- A `watch()` run: its result, the number of authenticate RPCs it
issued, and whether the watch stream RPC was issued at all. -/
structure WatchRun where
  result : WatchResult
  authCalls : Nat
  rpcOpened : Bool
  deriving DecidableEq, Repr

/-- `Client::watch` (src/client.rs:481-518).  Order of operations as in
the source: push the create request into the local channel, run
`refresh_token` (its error propagates via `?` before the stream RPC is
issued), attach the token and the `hasleader` metadata, issue the watch
RPC, then read exactly one inbound message: a closed stream fails with
`Error::CreateWatch`; a message not marked `created` fails with the
fixed `WatchEvent` text; a created message marked `canceled` fails with
`WatchEvent` carrying the server's `cancel_reason`; a created,
uncancelled message with a non-empty event batch trips the `assert!`
(panic); otherwise the session is returned with the server-assigned
watch id. -/
def watchCall (wenv : WatchEnv) (aenv : AuthEnv) (s : Session) : WatchRun :=
  match wenv.channelSend with
  | Except.error e => ⟨WatchResult.err e, 0, false⟩
  | Except.ok _ =>
    match refreshToken aenv s 0 with
    | (Except.error e, calls) => ⟨WatchResult.err e, calls, false⟩
    | (Except.ok _, calls) =>
      match wenv.openStream with
      | Except.error st => ⟨WatchResult.err (Error.Response st), calls, true⟩
      | Except.ok _ =>
        match wenv.firstMessage with
        | Except.error st => ⟨WatchResult.err (Error.Response st), calls, true⟩
        | Except.ok none => ⟨WatchResult.err Error.CreateWatch, calls, true⟩
        | Except.ok (some resp) =>
          if !resp.created then
            ⟨WatchResult.err
              (Error.WatchEvent "should receive created event at first"), calls, true⟩
          else if resp.canceled then
            ⟨WatchResult.err (Error.WatchEvent resp.cancelReason), calls, true⟩
          else if resp.events.isEmpty then
            ⟨WatchResult.ok resp.watchId, calls, true⟩
          else
            ⟨WatchResult.panicked, calls, true⟩

/-! ## Lease keep-alive handshake (`Client::keep_alive_for`) -/

/-- One message of the inbound lease stream
(`etcdserverpb::LeaseKeepAliveResponse`), restricted to the fields the
handshake inspects. -/
structure LeaseKeepAliveResponse where
  id : Int
  ttl : Int
  deriving DecidableEq, Repr

/-- Environment for one `keep_alive_for` call: the outcome of pushing
the initial request into the outbound channel (`Except.error ()` is a
closed channel), of issuing the keep-alive stream RPC, and of reading
the first inbound message (`Except.ok none` is a stream that closed
before any response). -/
structure LeaseEnv where
  sendInitial : Except Unit Unit
  openStream : Except Status Unit
  firstMessage : Except Status (Option LeaseKeepAliveResponse)

/-- Result of `keep_alive_for`: a `LeaseKeepAlive` handle identified by
a lease id, or a typed error. -/
inductive KeepAliveResult
  | ok (leaseId : Int)
  | err (e : Error)
  deriving DecidableEq, Repr

/-- A `keep_alive_for` run: its result plus the id carried by the
initial keep-alive request, when that request was pushed onto the
stream (`none` only when the channel send itself failed). -/
structure KeepAliveRun where
  result : KeepAliveResult
  sentInitialId : Option Int
  deriving DecidableEq, Repr

/-- `Client::keep_alive_for` (src/client.rs:550-577).  Exactly one
initial request `LeaseKeepAliveRequest { id: lease_id }` is sent before
anything is read (a channel failure maps to `Error::ChannelClosed`);
then exactly one response is read: a stream closed before any response
fails with `Error::CreateWatch`; otherwise the handle is built from the
id the response reports — the source performs no comparison of
`resp.id` against the requested lease id. -/
def keepAliveFor (lenv : LeaseEnv) (leaseId : Int) : KeepAliveRun :=
  match lenv.sendInitial with
  | Except.error _ => ⟨KeepAliveResult.err Error.ChannelClosed, none⟩
  | Except.ok _ =>
    match lenv.openStream with
    | Except.error st => ⟨KeepAliveResult.err (Error.Response st), some leaseId⟩
    | Except.ok _ =>
      match lenv.firstMessage with
      | Except.error st => ⟨KeepAliveResult.err (Error.Response st), some leaseId⟩
      | Except.ok none => ⟨KeepAliveResult.err Error.CreateWatch, some leaseId⟩
      | Except.ok (some resp) => ⟨KeepAliveResult.ok resp.id, some leaseId⟩

/-! ## Operation facades

Each unary operation facade is embedded over a generic message type `T`
and response type `R`; what the embedding records is the routing the
source performs: which facades delegate to `execute_with_retries`, and
which issue a single direct transport call. -/

/-- A single direct transport call, as performed by the `None =>`
branches of the auth facades and by `authenticate`: the request is
issued once, without `set_token`, and an error status converts to
`Error::Response` via `?`. -/
def directCall (env : CallEnv T R) (req : T) : RetryOutcome R :=
  match env.call 1 req none with
  | AttemptResult.ok r => ⟨Except.ok r, 1⟩
  | AttemptResult.err st => ⟨Except.error (Error.Response st), 1⟩

/-- `KeyValueOp::put` for `Client` (src/client.rs:377-387). -/
def putOp (env : CallEnv T R) (aenv : AuthEnv) (s : Session) (req : T) :
    RetryOutcome R :=
  executeWithRetries env aenv s req

/-- `KeyValueOp::get` for `Client` (src/client.rs:389-399). -/
def getOp (env : CallEnv T R) (aenv : AuthEnv) (s : Session) (req : T) :
    RetryOutcome R :=
  executeWithRetries env aenv s req

/-- `KeyValueOp::delete` for `Client` (src/client.rs:420-432). -/
def deleteOp (env : CallEnv T R) (aenv : AuthEnv) (s : Session) (req : T) :
    RetryOutcome R :=
  executeWithRetries env aenv s req

/-- `KeyValueOp::txn` for `Client` (src/client.rs:453-463). -/
def txnOp (env : CallEnv T R) (aenv : AuthEnv) (s : Session) (req : T) :
    RetryOutcome R :=
  executeWithRetries env aenv s req

/-- `KeyValueOp::compact` for `Client` (src/client.rs:465-477). -/
def compactOp (env : CallEnv T R) (aenv : AuthEnv) (s : Session) (req : T) :
    RetryOutcome R :=
  executeWithRetries env aenv s req

/-- `LeaseOp::grant_lease` for `Client` (src/client.rs:522-534). -/
def grantLeaseOp (env : CallEnv T R) (aenv : AuthEnv) (s : Session) (req : T) :
    RetryOutcome R :=
  executeWithRetries env aenv s req

/-- `LeaseOp::revoke` for `Client` (src/client.rs:536-548). -/
def revokeOp (env : CallEnv T R) (aenv : AuthEnv) (s : Session) (req : T) :
    RetryOutcome R :=
  executeWithRetries env aenv s req

/-- `LeaseOp::time_to_live` for `Client` (src/client.rs:579-591). -/
def timeToLiveOp (env : CallEnv T R) (aenv : AuthEnv) (s : Session) (req : T) :
    RetryOutcome R :=
  executeWithRetries env aenv s req

/-- `ClusterOp::member_add` for `Client` (src/client.rs:595-607). -/
def memberAddOp (env : CallEnv T R) (aenv : AuthEnv) (s : Session) (req : T) :
    RetryOutcome R :=
  executeWithRetries env aenv s req

/-- `ClusterOp::member_remove` for `Client` (src/client.rs:609-621). -/
def memberRemoveOp (env : CallEnv T R) (aenv : AuthEnv) (s : Session) (req : T) :
    RetryOutcome R :=
  executeWithRetries env aenv s req

/-- `ClusterOp::member_update` for `Client` (src/client.rs:623-635). -/
def memberUpdateOp (env : CallEnv T R) (aenv : AuthEnv) (s : Session) (req : T) :
    RetryOutcome R :=
  executeWithRetries env aenv s req

/-- `ClusterOp::member_list` for `Client` (src/client.rs:637-646). -/
def memberListOp (env : CallEnv T R) (aenv : AuthEnv) (s : Session) (req : T) :
    RetryOutcome R :=
  executeWithRetries env aenv s req

/-- `AuthOp::authenticate` for `Client` (src/client.rs:161-169):
always a single direct transport call. -/
def authenticateOp (env : CallEnv T R) (req : T) : RetryOutcome R :=
  directCall env req

/-- `AuthOp::auth_status` for `Client` (src/client.rs:171-184):
through the retry executor iff `auth_user` is set. -/
def authStatusOp (env : CallEnv T R) (aenv : AuthEnv) (s : Session) (req : T) :
    RetryOutcome R :=
  match s.authUser with
  | some _ => executeWithRetries env aenv s req
  | none => directCall env req

/-- `AuthOp::auth_enable` for `Client` (src/client.rs:186-199):
through the retry executor iff `auth_user` is set. -/
def authEnableOp (env : CallEnv T R) (aenv : AuthEnv) (s : Session) (req : T) :
    RetryOutcome R :=
  match s.authUser with
  | some _ => executeWithRetries env aenv s req
  | none => directCall env req

/-- `AuthOp::auth_disable` for `Client` (src/client.rs:201-214):
through the retry executor iff `auth_user` is set. -/
def authDisableOp (env : CallEnv T R) (aenv : AuthEnv) (s : Session) (req : T) :
    RetryOutcome R :=
  match s.authUser with
  | some _ => executeWithRetries env aenv s req
  | none => directCall env req

/-- `AuthOp::role_add` for `Client` (src/client.rs:216-232):
through the retry executor iff `auth_user` is set. -/
def roleAddOp (env : CallEnv T R) (aenv : AuthEnv) (s : Session) (req : T) :
    RetryOutcome R :=
  match s.authUser with
  | some _ => executeWithRetries env aenv s req
  | none => directCall env req

/-- `AuthOp::role_delete` for `Client` (src/client.rs:234-250):
through the retry executor iff `auth_user` is set. -/
def roleDeleteOp (env : CallEnv T R) (aenv : AuthEnv) (s : Session) (req : T) :
    RetryOutcome R :=
  match s.authUser with
  | some _ => executeWithRetries env aenv s req
  | none => directCall env req

/-- `AuthOp::role_list` for `Client` (src/client.rs:252-265):
through the retry executor iff `auth_user` is set. -/
def roleListOp (env : CallEnv T R) (aenv : AuthEnv) (s : Session) (req : T) :
    RetryOutcome R :=
  match s.authUser with
  | some _ => executeWithRetries env aenv s req
  | none => directCall env req

/-! ## Concrete environments used to exercise the definitions -/

/-- A transport on which every attempt of the call fails with
`Unavailable`. -/
def allUnavailEnv : CallEnv Unit Unit :=
  ⟨fun _ _ _ => AttemptResult.err ⟨Code.unavailable, "server down"⟩⟩

/-- A transport on which every attempt of the call fails with
`PermissionDenied`. -/
def deniedEnv : CallEnv Unit Unit :=
  ⟨fun _ _ _ => AttemptResult.err ⟨Code.permissionDenied, "denied"⟩⟩

/-- An authenticate transport that always delivers the parsable token
string "tok2". -/
def okAuthEnv : AuthEnv := ⟨fun _ => Except.ok "tok2"⟩

/-- An authenticate transport that always delivers a token string
containing a newline, which is not representable as ASCII metadata. -/
def badTokenAuthEnv : AuthEnv := ⟨fun _ => Except.ok "bad\ntoken"⟩

/-- A transport on which the call fails with `Unauthenticated` unless
the token "tok2" is attached, in which case it succeeds. -/
def staleTokenEnv : CallEnv Unit Unit :=
  ⟨fun _ _ tok =>
    if tok = some "tok2" then AttemptResult.ok ()
    else AttemptResult.err ⟨Code.unauthenticated, "invalid auth token"⟩⟩

/-! ## The retry executor -/

/-- The retry loop makes at most `fuel` further attempts beyond the
`made` it has already been charged with. -/
theorem retryLoop_attempts_le (env : CallEnv T R) (aenv : AuthEnv) (req : T) :
    ∀ (fuel made calls : Nat) (s : Session),
      (retryLoop env aenv req fuel made calls s).attempts ≤ made + fuel := by
  intro fuel
  induction fuel with
  | zero =>
    intro made calls s
    simp [retryLoop]
  | succ n ih =>
    intro made calls s
    simp only [retryLoop]
    split
    · simp
    · split
      · split
        · simp
        · exact le_trans (ih (made + 1) _ _) (by omega)
      · split
        · exact le_trans (ih (made + 1) _ _) (by omega)
        · simp

/-- Claim C1: every call through the retry executor makes at most 3
attempts; and when every attempt fails with status `Unavailable`, the
executor makes exactly 3 attempts and returns the distinct
`Error::ExecuteFailed` (not the protocol status, and without looping
forever). -/
theorem retry_bound_and_unavailable_exhaustion (T R : Type) (env : CallEnv T R)
    (aenv : AuthEnv) (s : Session) (req : T) :
    (executeWithRetries env aenv s req).attempts ≤ 3 ∧
    ((∀ i tok, ∃ m, env.call i req tok = AttemptResult.err ⟨Code.unavailable, m⟩) →
      executeWithRetries env aenv s req =
        ⟨Except.error Error.ExecuteFailed, 3⟩) := by
  constructor
  · simpa using retryLoop_attempts_le env aenv req MAX_RETRY 0 0 s
  · intro h
    obtain ⟨m1, h1⟩ := h 1 s.token
    obtain ⟨m2, h2⟩ := h 2 s.token
    obtain ⟨m3, h3⟩ := h 3 s.token
    simp [executeWithRetries, MAX_RETRY, retryLoop, h1, h2, h3]

/-- Witness for C1: on a transport that is always `Unavailable`, the
executor returns `ExecuteFailed` after exactly 3 attempts. -/
theorem retry_bound_and_unavailable_exhaustion_witness :
    executeWithRetries allUnavailEnv okAuthEnv ⟨none, none⟩ () =
      ⟨Except.error Error.ExecuteFailed, 3⟩ :=
  (retry_bound_and_unavailable_exhaustion Unit Unit allUnavailEnv okAuthEnv
      ⟨none, none⟩ ()).2 (fun _ _ => ⟨"server down", rfl⟩)

/-- Claim C2: an attempt failing with any status other than
`Unauthenticated` or `Unavailable` returns to the caller after exactly
that one attempt, as `Error::Response` wrapping the status verbatim. -/
theorem hard_failure_single_attempt (T R : Type) (env : CallEnv T R)
    (aenv : AuthEnv) (s : Session) (req : T) (st : Status)
    (hc : env.call 1 req s.token = AttemptResult.err st)
    (hu : st.code ≠ Code.unauthenticated) (hv : st.code ≠ Code.unavailable) :
    executeWithRetries env aenv s req =
      ⟨Except.error (Error.Response st), 1⟩ := by
  simp [executeWithRetries, MAX_RETRY, retryLoop, hc, hu, hv]

/-- Witness for C2: a `PermissionDenied` failure surfaces verbatim
after a single attempt. -/
theorem hard_failure_single_attempt_witness :
    executeWithRetries deniedEnv okAuthEnv ⟨none, none⟩ () =
      ⟨Except.error (Error.Response ⟨Code.permissionDenied, "denied"⟩), 1⟩ :=
  hard_failure_single_attempt Unit Unit deniedEnv okAuthEnv ⟨none, none⟩ ()
    ⟨Code.permissionDenied, "denied"⟩ rfl (by decide) (by decide)

/-- Claim C3: after an `Unauthenticated` failure the executor runs
`refresh_token`; when the refresh succeeds, the next attempt re-issues
the same logical request with the now-current token, and its success is
delivered to the caller (here on attempt 2 of the budget). -/
theorem unauthenticated_refresh_then_success (T R : Type) (env : CallEnv T R)
    (aenv : AuthEnv) (s : Session) (req : T) (st : Status) (s' : Session)
    (calls' : Nat) (r : R)
    (hc : env.call 1 req s.token = AttemptResult.err st)
    (hst : st.code = Code.unauthenticated)
    (hr : refreshToken aenv s 0 = (Except.ok s', calls'))
    (h2 : env.call 2 req s'.token = AttemptResult.ok r) :
    executeWithRetries env aenv s req = ⟨Except.ok r, 2⟩ := by
  simp [executeWithRetries, MAX_RETRY, retryLoop, hc, hst, hr, h2]

/-- Witness for C3: a stale token is rejected once, refreshed to
"tok2", and the same call succeeds on the second attempt. -/
theorem unauthenticated_refresh_then_success_witness :
    executeWithRetries staleTokenEnv okAuthEnv
      ⟨some ("user", "password"), some "tok1"⟩ () = ⟨Except.ok (), 2⟩ :=
  unauthenticated_refresh_then_success Unit Unit staleTokenEnv okAuthEnv
    ⟨some ("user", "password"), some "tok1"⟩ ()
    ⟨Code.unauthenticated, "invalid auth token"⟩
    ⟨some ("user", "password"), some "tok2"⟩ 1 () rfl rfl rfl rfl

/-- Claim C10: when the refresh triggered by an `Unauthenticated`
failure itself fails, that refresh error is returned to the caller
immediately after the one attempt — not the original status and not
`ExecuteFailed`. -/
theorem refresh_error_aborts_retries (T R : Type) (env : CallEnv T R)
    (aenv : AuthEnv) (s : Session) (req : T) (st : Status) (e : Error)
    (calls : Nat)
    (hc : env.call 1 req s.token = AttemptResult.err st)
    (hst : st.code = Code.unauthenticated)
    (hr : refreshToken aenv s 0 = (Except.error e, calls)) :
    executeWithRetries env aenv s req = ⟨Except.error e, 1⟩ := by
  simp [executeWithRetries, MAX_RETRY, retryLoop, hc, hst, hr]

/-- Witness for C10: the refresh returns an unparsable token, and the
caller observes `ParseMetadataToken` after a single attempt. -/
theorem refresh_error_aborts_retries_witness :
    executeWithRetries staleTokenEnv badTokenAuthEnv
      ⟨some ("user", "password"), some "tok1"⟩ () =
      ⟨Except.error (Error.ParseMetadataToken invalidMetadataValueMsg), 1⟩ :=
  refresh_error_aborts_retries Unit Unit staleTokenEnv badTokenAuthEnv
    ⟨some ("user", "password"), some "tok1"⟩ ()
    ⟨Code.unauthenticated, "invalid auth token"⟩
    (Error.ParseMetadataToken invalidMetadataValueMsg) 1 rfl rfl rfl

/-! ## Token refresh and client construction -/

/-- Claim C8: `refresh_token` succeeds without any authenticate RPC and
without touching the token cell when no credentials are configured;
with credentials it authenticates, fails with `ParseMetadataToken`
exactly when the returned token is not representable as ASCII metadata,
and replaces the token cell only on success (an authenticate status
failure surfaces as `Error::Response`, leaving the session unchanged). -/
theorem refresh_token_contract (aenv : AuthEnv) (s : Session) (calls : Nat) :
    (s.authUser = none → refreshToken aenv s calls = (Except.ok s, calls)) ∧
    (∀ u, s.authUser = some u →
      (∀ st, aenv.authenticate calls = Except.error st →
        refreshToken aenv s calls =
          (Except.error (Error.Response st), calls + 1)) ∧
      (∀ tok, aenv.authenticate calls = Except.ok tok →
        (metadataParsable tok = true →
          refreshToken aenv s calls =
            (Except.ok { s with token := some tok }, calls + 1)) ∧
        (metadataParsable tok = false →
          refreshToken aenv s calls =
            (Except.error (Error.ParseMetadataToken invalidMetadataValueMsg),
              calls + 1)))) := by
  refine ⟨fun h => ?_, fun u hu => ⟨fun st hst => ?_, fun tok htok => ⟨fun hp => ?_, fun hp => ?_⟩⟩⟩
  · simp [refreshToken, h]
  · simp [refreshToken, hu, hst]
  · simp [refreshToken, hu, htok, hp]
  · simp [refreshToken, hu, htok, hp]

/-- Witness for C8: with credentials configured, an unparsable returned
token ("bad\ntoken") fails the refresh with `ParseMetadataToken`. -/
theorem refresh_token_contract_witness :
    refreshToken badTokenAuthEnv ⟨some ("user", "password"), none⟩ 0 =
      (Except.error (Error.ParseMetadataToken invalidMetadataValueMsg), 1) :=
  (((refresh_token_contract badTokenAuthEnv ⟨some ("user", "password"), none⟩ 0).2
      ("user", "password") rfl).2 "bad\ntoken" rfl).2 (by decide)

/-- Claim C6 (code bug): with credentials configured and a refresh that
fails at construction — here because the server returns a token that is
not representable as ASCII metadata — `Client::new` hits the
`.unwrap()` on `refresh_token()` and panics, instead of returning the
typed `Err` promised by its own doc comment ("Will returns `Err` if
failed to contact with given endpoints or authentication failed"). -/
theorem client_new_panics_on_refresh_failure :
    clientNew badTokenAuthEnv (some ("user", "password")) =
      NewOutcome.panicked := by
  decide

/-! ## The watch create handshake -/

/-- With credentials configured, `refresh_token` issues exactly one
authenticate RPC, whatever its outcome. -/
theorem refreshToken_calls_of_some (aenv : AuthEnv) (s : Session)
    (u : String × String) (hu : s.authUser = some u) (calls : Nat) :
    (refreshToken aenv s calls).2 = calls + 1 := by
  simp only [refreshToken, hu]
  cases aenv.authenticate calls with
  | error st => rfl
  | ok tok =>
    by_cases hp : metadataParsable tok = true
    · simp [hp]
    · simp [hp]

/-- When the create request reaches the outbound channel, the number of
authenticate RPCs a `watch()` run issues is exactly that of the single
`refresh_token` it performs. -/
theorem watchCall_authCalls (wenv : WatchEnv) (aenv : AuthEnv) (s : Session)
    (hsend : wenv.channelSend = Except.ok ()) :
    (watchCall wenv aenv s).authCalls = (refreshToken aenv s 0).2 := by
  simp only [watchCall, hsend]
  rcases h : refreshToken aenv s 0 with ⟨res, calls⟩
  cases res with
  | error e => rfl
  | ok s' =>
    cases ho : wenv.openStream with
    | error st => rfl
    | ok _ =>
      cases hm : wenv.firstMessage with
      | error st => rfl
      | ok msg =>
        cases msg with
        | none => rfl
        | some resp =>
          simp only []
          split <;> first | rfl | split <;> first | rfl | split <;> rfl

/-- Claim C9: `watch()` performs a full token refresh before the watch
stream RPC — when credentials are configured this issues one
authenticate RPC even if the current token is still set — and when the
refresh fails, the refresh error is returned without the stream RPC
ever being issued. -/
theorem watch_refreshes_before_opening (wenv : WatchEnv) (aenv : AuthEnv)
    (s : Session) (hsend : wenv.channelSend = Except.ok ()) :
    ((∃ u, s.authUser = some u) → (watchCall wenv aenv s).authCalls = 1) ∧
    (∀ e calls, refreshToken aenv s 0 = (Except.error e, calls) →
      (watchCall wenv aenv s).result = WatchResult.err e ∧
      (watchCall wenv aenv s).rpcOpened = false) := by
  constructor
  · rintro ⟨u, hu⟩
    rw [watchCall_authCalls wenv aenv s hsend,
      refreshToken_calls_of_some aenv s u hu 0]
  · intro e calls hr
    simp [watchCall, hsend, hr]

/-- Witness for C9: with credentials and a still-set token "tok1", a
`watch()` run issues exactly one authenticate RPC before opening the
stream. -/
theorem watch_refreshes_before_opening_witness :
    (watchCall ⟨Except.ok (), Except.ok (), Except.ok none⟩ okAuthEnv
      ⟨some ("user", "password"), some "tok1"⟩).authCalls = 1 :=
  (watch_refreshes_before_opening ⟨Except.ok (), Except.ok (), Except.ok none⟩
    okAuthEnv ⟨some ("user", "password"), some "tok1"⟩ rfl).1
    ⟨("user", "password"), rfl⟩

/-- A watch environment whose first inbound message is marked canceled
with a server-supplied reason but is not marked created. -/
def canceledNotCreatedWatchEnv : WatchEnv :=
  ⟨Except.ok (), Except.ok (),
    Except.ok (some ⟨1, false, true, "server canceled the watch", []⟩)⟩

/-- Counterexample to C4 as stated: when the first inbound message is
marked canceled but not created, `watch()` fails with the fixed
"should receive created event at first" text, not with a watch-event
error carrying the server-supplied cancellation reason (the
`!resp.created` check runs before the `resp.canceled` check). -/
theorem watch_cancel_reason_counterexample :
    (watchCall canceledNotCreatedWatchEnv okAuthEnv ⟨none, none⟩).result =
      WatchResult.err
        (Error.WatchEvent "should receive created event at first") ∧
    (watchCall canceledNotCreatedWatchEnv okAuthEnv ⟨none, none⟩).result ≠
      WatchResult.err (Error.WatchEvent "server canceled the watch") := by
  exact ⟨rfl, by decide⟩

/-- Claim C4 as amended: `watch()` never returns a session unless the
handshake is satisfied.  After a successful refresh and stream open: a
stream closed before any message fails with `Error::CreateWatch`; a
first message not marked created fails with the fixed watch-event
text (even if it is also marked canceled); a created message marked
canceled fails with a watch-event error carrying the server-supplied
cancellation reason; a created, uncancelled message with a non-empty
event batch aborts with the `assert!` panic rather than returning a
session; only a created, uncancelled, event-free acknowledgement
returns the session with the server-assigned watch id. -/
theorem watch_handshake_contract (wenv : WatchEnv) (aenv : AuthEnv)
    (s : Session) (s' : Session) (calls : Nat)
    (hsend : wenv.channelSend = Except.ok ())
    (hr : refreshToken aenv s 0 = (Except.ok s', calls))
    (hopen : wenv.openStream = Except.ok ()) :
    (wenv.firstMessage = Except.ok none →
      (watchCall wenv aenv s).result = WatchResult.err Error.CreateWatch) ∧
    (∀ resp, wenv.firstMessage = Except.ok (some resp) →
      (resp.created = false →
        (watchCall wenv aenv s).result =
          WatchResult.err
            (Error.WatchEvent "should receive created event at first")) ∧
      (resp.created = true → resp.canceled = true →
        (watchCall wenv aenv s).result =
          WatchResult.err (Error.WatchEvent resp.cancelReason)) ∧
      (resp.created = true → resp.canceled = false → resp.events ≠ [] →
        (watchCall wenv aenv s).result = WatchResult.panicked) ∧
      (resp.created = true → resp.canceled = false → resp.events = [] →
        (watchCall wenv aenv s).result = WatchResult.ok resp.watchId)) := by
  constructor
  · intro hm
    simp [watchCall, hsend, hr, hopen, hm]
  · intro resp hm
    refine ⟨fun h1 => ?_, fun h1 h2 => ?_, fun h1 h2 h3 => ?_,
      fun h1 h2 h3 => ?_⟩
    · simp [watchCall, hsend, hr, hopen, hm, h1]
    · simp [watchCall, hsend, hr, hopen, hm, h1, h2]
    · simp [watchCall, hsend, hr, hopen, hm, h1, h2,
        List.isEmpty_eq_false_iff_exists_mem.2
          (List.exists_mem_of_ne_nil resp.events h3)]
    · simp [watchCall, hsend, hr, hopen, hm, h1, h2, h3]

/-- Witness for C4 (amended): a stream that closes before any message
makes `watch()` fail with the watch-creation error. -/
theorem watch_handshake_contract_witness :
    (watchCall ⟨Except.ok (), Except.ok (), Except.ok none⟩ okAuthEnv
      ⟨none, none⟩).result = WatchResult.err Error.CreateWatch :=
  (watch_handshake_contract ⟨Except.ok (), Except.ok (), Except.ok none⟩
    okAuthEnv ⟨none, none⟩ ⟨none, none⟩ 0 rfl rfl rfl).1 rfl

/-! ## The lease keep-alive handshake -/

/-- A lease stream whose handshake response reports lease id 7. -/
def mismatchedLeaseEnv : LeaseEnv :=
  ⟨Except.ok (), Except.ok (), Except.ok (some ⟨7, 10⟩)⟩

/-- Counterexample to C5 as stated: keeping lease id 5 alive against a
stream whose handshake response reports id 7 succeeds and returns a
handle identified by 7 — the source never compares the reported id with
the requested one, so the handle is not identified by the requested
lease id. -/
theorem keep_alive_id_counterexample :
    keepAliveFor mismatchedLeaseEnv 5 = ⟨KeepAliveResult.ok 7, some 5⟩ ∧
    (keepAliveFor mismatchedLeaseEnv 5).result ≠ KeepAliveResult.ok 5 := by
  exact ⟨rfl, by decide⟩

/-- Claim C5 as amended: `keep_alive_for L` sends exactly one initial
keep-alive request carrying `L` before reading anything; it then reads
exactly one handshake response and returns a handle identified by the
lease id that response reports — without checking it against `L` —
and when the stream closes before any response it fails with the
creation error (`Error::CreateWatch`). -/
theorem keep_alive_handshake_contract (lenv : LeaseEnv) (leaseId : Int)
    (hsend : lenv.sendInitial = Except.ok ())
    (hopen : lenv.openStream = Except.ok ()) :
    (keepAliveFor lenv leaseId).sentInitialId = some leaseId ∧
    (lenv.firstMessage = Except.ok none →
      (keepAliveFor lenv leaseId).result =
        KeepAliveResult.err Error.CreateWatch) ∧
    (∀ resp, lenv.firstMessage = Except.ok (some resp) →
      (keepAliveFor lenv leaseId).result = KeepAliveResult.ok resp.id) := by
  refine ⟨?_, fun hm => ?_, fun resp hm => ?_⟩
  · simp only [keepAliveFor, hsend, hopen]
    cases hm : lenv.firstMessage with
    | error st => rfl
    | ok msg => cases msg with
      | none => rfl
      | some resp => rfl
  · simp [keepAliveFor, hsend, hopen, hm]
  · simp [keepAliveFor, hsend, hopen, hm]

/-- Witness for C5 (amended): a handshake response reporting the
requested id 5 yields a handle identified by 5, after the single
initial request carrying 5. -/
theorem keep_alive_handshake_contract_witness :
    (keepAliveFor ⟨Except.ok (), Except.ok (), Except.ok (some ⟨5, 10⟩)⟩
        5).sentInitialId = some 5 ∧
    (keepAliveFor ⟨Except.ok (), Except.ok (), Except.ok (some ⟨5, 10⟩)⟩
        5).result = KeepAliveResult.ok 5 :=
  ⟨(keep_alive_handshake_contract
      ⟨Except.ok (), Except.ok (), Except.ok (some ⟨5, 10⟩)⟩ 5 rfl rfl).1,
    (keep_alive_handshake_contract
      ⟨Except.ok (), Except.ok (), Except.ok (some ⟨5, 10⟩)⟩ 5 rfl rfl).2.2
      ⟨5, 10⟩ rfl⟩

/-! ## Routing of the unary operation facades -/

/-- Counterexample to C7 as stated: `role_add` with no credentials
configured is neither the authenticate bootstrap nor a status probe,
yet it skips the retry wrapper: on an always-`Unavailable` transport it
makes a single direct attempt and surfaces the status, where the retry
executor on the same transport would make 3 attempts and return
`ExecuteFailed`. -/
theorem role_add_skips_retry_counterexample :
    roleAddOp allUnavailEnv okAuthEnv ⟨none, none⟩ () =
      ⟨Except.error (Error.Response ⟨Code.unavailable, "server down"⟩), 1⟩ ∧
    executeWithRetries allUnavailEnv okAuthEnv ⟨none, none⟩ () =
      ⟨Except.error Error.ExecuteFailed, 3⟩ := by
  exact ⟨rfl, rfl⟩

/-- Claim C7 as amended: every key-value, lease and cluster unary call
passes through the retry executor unconditionally; every
auth-management call (status, enable, disable, role add/delete/list)
passes through it exactly when credentials are configured and otherwise
goes directly to the transport in a single attempt; and the
authenticate bootstrap always goes directly to the transport. -/
theorem unary_call_routing (T R : Type) (env : CallEnv T R) (aenv : AuthEnv)
    (s : Session) (req : T) :
    (putOp env aenv s req = executeWithRetries env aenv s req ∧
     getOp env aenv s req = executeWithRetries env aenv s req ∧
     deleteOp env aenv s req = executeWithRetries env aenv s req ∧
     txnOp env aenv s req = executeWithRetries env aenv s req ∧
     compactOp env aenv s req = executeWithRetries env aenv s req ∧
     grantLeaseOp env aenv s req = executeWithRetries env aenv s req ∧
     revokeOp env aenv s req = executeWithRetries env aenv s req ∧
     timeToLiveOp env aenv s req = executeWithRetries env aenv s req ∧
     memberAddOp env aenv s req = executeWithRetries env aenv s req ∧
     memberRemoveOp env aenv s req = executeWithRetries env aenv s req ∧
     memberUpdateOp env aenv s req = executeWithRetries env aenv s req ∧
     memberListOp env aenv s req = executeWithRetries env aenv s req) ∧
    ((∃ u, s.authUser = some u) →
      authStatusOp env aenv s req = executeWithRetries env aenv s req ∧
      authEnableOp env aenv s req = executeWithRetries env aenv s req ∧
      authDisableOp env aenv s req = executeWithRetries env aenv s req ∧
      roleAddOp env aenv s req = executeWithRetries env aenv s req ∧
      roleDeleteOp env aenv s req = executeWithRetries env aenv s req ∧
      roleListOp env aenv s req = executeWithRetries env aenv s req) ∧
    (s.authUser = none →
      authStatusOp env aenv s req = directCall env req ∧
      authEnableOp env aenv s req = directCall env req ∧
      authDisableOp env aenv s req = directCall env req ∧
      roleAddOp env aenv s req = directCall env req ∧
      roleDeleteOp env aenv s req = directCall env req ∧
      roleListOp env aenv s req = directCall env req) ∧
    authenticateOp env req = directCall env req := by
  refine ⟨⟨rfl, rfl, rfl, rfl, rfl, rfl, rfl, rfl, rfl, rfl, rfl, rfl⟩,
    ?_, ?_, rfl⟩
  · rintro ⟨u, hu⟩
    exact ⟨by simp [authStatusOp, hu], by simp [authEnableOp, hu],
      by simp [authDisableOp, hu], by simp [roleAddOp, hu],
      by simp [roleDeleteOp, hu], by simp [roleListOp, hu]⟩
  · intro hu
    exact ⟨by simp [authStatusOp, hu], by simp [authEnableOp, hu],
      by simp [authDisableOp, hu], by simp [roleAddOp, hu],
      by simp [roleDeleteOp, hu], by simp [roleListOp, hu]⟩

/-- Witness for C7 (amended): with credentials configured, `role_add`
on an always-`Unavailable` transport goes through the retry executor
and exhausts the 3 attempts. -/
theorem unary_call_routing_witness :
    roleAddOp allUnavailEnv okAuthEnv ⟨some ("user", "password"), none⟩ () =
      executeWithRetries allUnavailEnv okAuthEnv
        ⟨some ("user", "password"), none⟩ () :=
  ((unary_call_routing Unit Unit allUnavailEnv okAuthEnv
      ⟨some ("user", "password"), none⟩ ()).2.1
    ⟨("user", "password"), rfl⟩).2.2.2.1

end EtcdRs
